import Mathlib

/-!
Verification of the appointment-scheduling core of the Clinic_System_Backend
repository (FastAPI + SQLAlchemy + Postgres).

The development is a shallow embedding of the relevant source code:

* app_package/models.py        — data model (enums, table rows)
* app_package/task_scheduler.py — slot generation and cleanup jobs
* app_package/routers/student.py — book_schedule, create_visit_and_complaint
* app_package/routers/doctor.py  — create_schedule, cancel_schedule,
                                   complete_visit, create_diagnosis

Conventions of the embedding:

* Times of day are minutes since midnight (Nat).  The Python code only
  compares and adds datetime.time / timedelta values, which this mirrors.
* Dates are Nat day numbers with day 0 a Monday, so that the Python
  date.weekday() function (Monday = 0 .. Sunday = 6) becomes d % 7.
  (Python ordinal 1, i.e. 0001-01-01, is a Monday; our Date is ordinal - 1.)
* The database state is explicit: lists of rows plus the autoincrement
  counters Postgres would use for primary keys.
* Each endpoint is a function from the database state and its request
  parameters to the pair of the post-commit database state and an
  Except response: ok carries the returned payload, error carries the
  HTTP status code and detail string that the caller receives.  An error
  raised before any commit leaves the state argument unchanged, matching
  SQLAlchemy session rollback on close.
* result.scalar_one_or_none() returns none on zero matching rows, the row
  on exactly one, and raises MultipleResultsFound on two or more; the
  raise surfaces as an HTTP 500 when uncaught (FastAPI default handler).
* The sessions are configured with autoflush=False (database.py), so a
  SELECT issued during a run does not see rows added earlier in the same
  still-uncommitted run; generate_schedules therefore checks candidates
  against the table as it was when the run started.
-/

namespace ClinicBackend

/-- Python date.weekday(): 0 = Monday .. 6 = Sunday.  Times of day are
minutes since midnight (Nat); dates are Nat day numbers with day 0 a
Monday (the Python proleptic-Gregorian ordinal minus one), so that
date.weekday() becomes reduction mod 7. -/
def weekday (d : Nat) : Nat := d % 7

/-- models.AppointmentStatus. -/
inductive AppointmentStatus
  | available
  | booked
  | completed
  | cancelled
  | pending
deriving DecidableEq, Repr

/-- models.VisitStatus. -/
inductive VisitStatus
  | pending
  | completed
  | cancelled
deriving DecidableEq, Repr

/-- models.AvailabilityStatus. -/
inductive AvailabilityStatus
  | active
  | inactive
deriving DecidableEq, Repr

/-- models.DayOfWeek. -/
inductive DayOfWeek
  | Monday
  | Tuesday
  | Wednesday
  | Thursday
  | Friday
  | Saturday
  | Sunday
deriving DecidableEq, Repr

/-- Position of a day name both in task_scheduler.DAY_MAPPING and in
calendar.day_name, which agree (Monday = 0 .. Sunday = 6).  The Python
string comparisons on day names are embedded as equality of these
indices. -/
def dayIndex : DayOfWeek → Nat
  | .Monday => 0
  | .Tuesday => 1
  | .Wednesday => 2
  | .Thursday => 3
  | .Friday => 4
  | .Saturday => 5
  | .Sunday => 6

/-- models.Availability (table availabilities); only the columns the
scheduling core reads. -/
structure Availability where
  availability_id : Nat
  doctor_id : String
  day_of_week : DayOfWeek
  start_time : Nat
  end_time : Nat
  status : AvailabilityStatus
deriving DecidableEq, Repr

/-- models.AppointmentSchedule (table appointment_schedules): one bookable
slot.  student_id and availability_id are nullable columns. -/
structure AppointmentSchedule where
  schedule_id : Nat
  doctor_id : String
  student_id : Option Nat
  availability_id : Option Nat
  date : Nat
  start_time : Nat
  end_time : Nat
  status : AppointmentStatus
deriving DecidableEq, Repr

/-- models.ClinicVisit (table clinic_visits); schedule_id is nullable. -/
structure ClinicVisit where
  visit_id : Nat
  student_id : Nat
  doctor_id : String
  schedule_id : Option Nat
  visit_date : Nat
  status : VisitStatus
deriving DecidableEq, Repr

/-- models.StudentComplaint (table complaints). -/
structure StudentComplaint where
  complaint_id : Nat
  visit_id : Nat
  student_id : Nat
  complaint_description : String
deriving DecidableEq, Repr

/-- models.DoctorDiagnosis (table diagnoses). -/
structure DoctorDiagnosis where
  diagnosis_id : Nat
  visit_id : Nat
  student_id : Nat
  complaint_id : Nat
  doctor_id : String
  diagnosis_description : String
  treatment_plan : Option String
deriving DecidableEq, Repr

/-- The persistent database state touched by the scheduling core: the row
lists of the four tables plus the autoincrement counters for their
integer primary keys. -/
structure DBState where
  availabilities : List Availability
  schedules : List AppointmentSchedule
  visits : List ClinicVisit
  complaints : List StudentComplaint
  diagnoses : List DoctorDiagnosis
  next_schedule_id : Nat
  next_visit_id : Nat
  next_complaint_id : Nat
  next_diagnosis_id : Nat
deriving DecidableEq, Repr

/-- An HTTP error response: fastapi.HTTPException(status_code, detail),
or the 500 produced by the default handler for an uncaught exception. -/
structure HErr where
  code : Nat
  detail : String
deriving DecidableEq, Repr

/-- result.scalar_one_or_none() over the rows matched by a filter:
none for zero rows, the row for one, and MultipleResultsFound - which
surfaces as an uncaught-exception HTTP 500 - for two or more. -/
def scalarOneOrNone (p : α → Bool) (rows : List α) : Except HErr (Option α) :=
  match rows.filter p with
  | [] => Except.ok none
  | [r] => Except.ok (some r)
  | _ :: _ :: _ => Except.error ⟨500, "Internal Server Error"⟩

/-- Python truthiness of a nullable integer column (None and 0 are falsy),
as used by the checks of the form if visit.schedule_id: . -/
def truthy : Option Nat → Bool
  | none => false
  | some n => n != 0

/-- task_scheduler.get_next_week_dates_for_day: the dates of the coming
Monday-to-Sunday week whose weekday has the given name.  The source
filters range(7) offsets from next_monday by comparing
calendar.day_name of the date with the requested day name; day-name
equality is embedded as dayIndex equality. -/
def get_next_week_dates_for_day (today : Nat) (day : DayOfWeek) : List Nat :=
  let next_monday := today + (7 - weekday today)
  ((List.range 7).map (fun i => next_monday + i)).filter
    (fun d => weekday d == dayIndex day)

/-- Fuel-indexed unfolding of the while loop of
task_scheduler.generate_schedules over one availability window and one
date: it emits (slot_start, slot_start + 20) while slot_start is before
the window end, breaking as soon as the 20-minute slot would run past
the end.  The fuel only bounds the iteration count for structural
recursion; with fuel = e - slot_start (as expand_window passes) the
zero-fuel case coincides with the loop condition slot_start < e being
false, so no behaviour is cut off. -/
def expandLoop (e : Nat) : Nat → Nat → List (Nat × Nat)
  | 0, _ => []
  | fuel + 1, slot_start =>
    if slot_start < e then
      let slot_end := slot_start + 20
      if slot_end > e then []
      else (slot_start, slot_end) :: expandLoop e fuel slot_end
    else []

/-- The while loop of generate_schedules for one window and one date. -/
def expand_window (slot_start e : Nat) : List (Nat × Nat) :=
  expandLoop e (e - slot_start) slot_start

/-- The (date, start, end) tuples one availability window contributes to a
generator run: every date of the coming week matching the window's day of
week, tiled by the 20-minute expansion of its time range. -/
def candidate_slots (today : Nat) (avail : Availability) : List (Nat × Nat × Nat) :=
  (get_next_week_dates_for_day today avail.day_of_week).flatMap (fun d =>
    (expand_window avail.start_time avail.end_time).map (fun p => (d, p.1, p.2)))

/-- The duplicate check of generate_schedules: the SELECT filter_by on the
exact (doctor_id, date, start_time, end_time) tuple. -/
def dupFilter (doctor : String) (d : Nat) (st en : Nat)
    (sc : AppointmentSchedule) : Bool :=
  sc.doctor_id == doctor && sc.date == d && sc.start_time == st && sc.end_time == en

/-- The appointment_schedules row generate_schedules inserts for one
candidate tuple (d, st, en) of a window, carrying the next autoincrement
id and status available. -/
def newSlotRow (avail : Availability) (nid d st en : Nat) : AppointmentSchedule :=
  { schedule_id := nid
    doctor_id := avail.doctor_id
    student_id := none
    availability_id := some avail.availability_id
    date := d
    start_time := st
    end_time := en
    status := AppointmentStatus.available }

/-- Body of the candidate loop of generate_schedules: for each candidate
tuple, query the committed table for an exact duplicate
(scalar_one_or_none; with autoflush=False the query sees only the rows
committed before the run, held in the committed argument) and add a new
available slot when none exists.  Added rows receive consecutive
autoincrement ids at commit. -/
def processCandidates (committed : List AppointmentSchedule) (avail : Availability) :
    List (Nat × Nat × Nat) → DBState → Except HErr DBState
  | [], db => Except.ok db
  | (d, st, en) :: rest, db =>
    match scalarOneOrNone (dupFilter avail.doctor_id d st en) committed with
    | Except.error e => Except.error e
    | Except.ok (some _) => processCandidates committed avail rest db
    | Except.ok none =>
        processCandidates committed avail rest
          { db with
            schedules := db.schedules ++ [newSlotRow avail db.next_schedule_id d st en]
            next_schedule_id := db.next_schedule_id + 1 }

/-- Loop of generate_schedules over the active availability windows. -/
def generate_avail (committed : List AppointmentSchedule) (today : Nat) :
    List Availability → DBState → Except HErr DBState
  | [], db => Except.ok db
  | a :: rest, db =>
    match processCandidates committed a (candidate_slots today a) db with
    | Except.error e => Except.error e
    | Except.ok db1 => generate_avail committed today rest db1

/-- task_scheduler.generate_schedules: select the active availability
windows, expand each into next-week candidate slots, insert the
candidates that have no exact (doctor, date, start, end) duplicate in the
committed table, and commit once at the end of the run.  An uncaught
exception (MultipleResultsFound from the duplicate check) aborts the run
before the commit, so the caller observes the unchanged state together
with the error. -/
def generate_schedules (today : Nat) (db : DBState) : DBState × Except HErr Unit :=
  match generate_avail db.schedules today
      (db.availabilities.filter (fun a => a.status == AvailabilityStatus.active)) db with
  | Except.ok db1 => (db1, Except.ok ())
  | Except.error e => (db, Except.error e)

/-- task_scheduler.cleanup_past_schedules: one DELETE of every
appointment_schedules row with date before today and status available,
then commit; returns the deleted row count. -/
def cleanup_past_schedules (today : Nat) (db : DBState) : DBState × Except HErr Nat :=
  let doomed := fun (sc : AppointmentSchedule) =>
    decide (sc.date < today) && sc.status == AppointmentStatus.available
  ({ db with schedules := db.schedules.filter (fun sc => !(doomed sc)) },
   Except.ok (db.schedules.filter doomed).length)

/-- Replace the appointment_schedules row with the given primary key, as
an ORM flush UPDATE ... WHERE schedule_id = sid does. -/
def updateSchedule (sid : Nat) (f : AppointmentSchedule → AppointmentSchedule)
    (rows : List AppointmentSchedule) : List AppointmentSchedule :=
  rows.map (fun sc => if sc.schedule_id == sid then f sc else sc)

/-- routers/student.py book_schedule (POST /students/schedules): inside a
transaction, select the row with the requested schedule_id whose
student_id is NULL and whose status is booked; if none, raise HTTP 400
with the combined not-found / already-booked / unavailable detail;
otherwise set the row's student_id and insert a pending ClinicVisit
linked to the slot, dated on the slot's date, then commit.  (The source
also assigns schedule.updated_at, but appointment_schedules has no such
column, so the assignment is a plain Python attribute with no database
effect.)  A MultipleResultsFound raise from scalar_one_or_none would be
uncaught, rolling the transaction back and surfacing as HTTP 500. -/
def book_schedule (db : DBState) (student_id : Nat) (booking_schedule_id : Nat) :
    DBState × Except HErr AppointmentSchedule :=
  match scalarOneOrNone
      (fun sc => sc.schedule_id == booking_schedule_id
        && sc.student_id.isNone && sc.status == AppointmentStatus.booked)
      db.schedules with
  | Except.error e => (db, Except.error e)
  | Except.ok none =>
      (db, Except.error ⟨400, "Schedule not found, already booked, or unavailable"⟩)
  | Except.ok (some schedule) =>
      let visit : ClinicVisit :=
        { visit_id := db.next_visit_id
          student_id := student_id
          doctor_id := schedule.doctor_id
          schedule_id := some schedule.schedule_id
          visit_date := schedule.date
          status := VisitStatus.pending }
      ({ db with
          schedules := updateSchedule schedule.schedule_id
            (fun sc => { sc with student_id := some student_id }) db.schedules
          visits := db.visits ++ [visit]
          next_visit_id := db.next_visit_id + 1 },
       Except.ok { schedule with student_id := some student_id })

/-- One Claim request to POST /students/complaints: the acting student,
the requested slot and the complaint text. -/
structure ClaimCall where
  student_id : Nat
  schedule_id : Nat
  complaint_description : String
deriving DecidableEq, Repr

/-- The read phase of create_visit_and_complaint (steps 1-2 of the
source): select the requested slot with status available (HTTP 404
"Schedule not available" when absent), then reject with HTTP 400 if this
student already has a visit for this slot.  Pure function of the
database state visible at the time the SELECTs run. -/
def claimRead (db : DBState) (c : ClaimCall) : Except HErr AppointmentSchedule :=
  match scalarOneOrNone
      (fun sc => sc.schedule_id == c.schedule_id
        && sc.status == AppointmentStatus.available)
      db.schedules with
  | Except.error e => Except.error e
  | Except.ok none => Except.error ⟨404, "Schedule not available"⟩
  | Except.ok (some schedule) =>
      match scalarOneOrNone
          (fun v => v.schedule_id == some c.schedule_id
            && v.student_id == c.student_id)
          db.visits with
      | Except.error e => Except.error e
      | Except.ok (some _) => Except.error ⟨400, "You already booked this slot"⟩
      | Except.ok none => Except.ok schedule

/-- The write phase of create_visit_and_complaint (steps 3-5 of the
source), applied to the database state current at commit time with the
slot snapshot taken by the read phase: insert the pending ClinicVisit
dated on the slot's date, insert the StudentComplaint, and update the
slot row (by primary key) to carry the student and status booked. -/
def claimCommit (db : DBState) (c : ClaimCall) (schedule : AppointmentSchedule) :
    DBState × ClinicVisit :=
  let visit : ClinicVisit :=
    { visit_id := db.next_visit_id
      student_id := c.student_id
      doctor_id := schedule.doctor_id
      schedule_id := some schedule.schedule_id
      visit_date := schedule.date
      status := VisitStatus.pending }
  let complaint : StudentComplaint :=
    { complaint_id := db.next_complaint_id
      visit_id := visit.visit_id
      student_id := c.student_id
      complaint_description := c.complaint_description }
  ({ db with
      visits := db.visits ++ [visit]
      complaints := db.complaints ++ [complaint]
      schedules := updateSchedule schedule.schedule_id
        (fun sc => { sc with
          student_id := some c.student_id
          status := AppointmentStatus.booked }) db.schedules
      next_visit_id := db.next_visit_id + 1
      next_complaint_id := db.next_complaint_id + 1 },
   visit)

/-- The body of create_visit_and_complaint before its exception handler:
read phase then write phase against the same state (the serial
execution).  Errors leave the state unchanged, since every raise in the
source happens before anything is added to the session. -/
def create_visit_inner (db : DBState) (c : ClaimCall) :
    DBState × Except HErr ClinicVisit :=
  match claimRead db c with
  | Except.error e => (db, Except.error e)
  | Except.ok schedule =>
      let r := claimCommit db c schedule
      (r.1, Except.ok r.2)

/-- routers/student.py create_visit_and_complaint
(POST /students/complaints): the whole body runs inside
try/except Exception, and fastapi.HTTPException is a subclass of
Exception, so every failure - including the function's own typed 404 and
400 raises - is re-raised as HTTP 500 "Internal error while creating
visit". -/
def create_visit_and_complaint (db : DBState) (student_id schedule_id : Nat)
    (complaint_description : String) : DBState × Except HErr ClinicVisit :=
  match create_visit_inner db ⟨student_id, schedule_id, complaint_description⟩ with
  | (db1, Except.ok v) => (db1, Except.ok v)
  | (db1, Except.error _) =>
      (db1, Except.error ⟨500, "Internal error while creating visit"⟩)

deriving instance DecidableEq for Except

/-- Progress of one in-flight create_visit_and_complaint request.  The
await points of the source (the SELECTs, then flush/commit) let the
asyncio event loop interleave other requests between the read phase and
the commit; the two phases are the atomic units. -/
inductive TaskState
  | ready
  | readDone (r : Except HErr AppointmentSchedule)
  | finished (r : Except HErr ClinicVisit)
deriving DecidableEq, Repr

/-- One scheduling step of an in-flight request: from ready, run the read
phase against the currently committed database; from readDone, run the
write phase (or convert the recorded error through the blanket exception
handler into the HTTP 500) and commit.  Postgres read committed places
no lock between another request's read and this commit, and the UPDATE
targets the row by primary key, so the commit applies to whatever state
other requests have meanwhile committed. -/
def taskStep (c : ClaimCall) (db : DBState) : TaskState → DBState × TaskState
  | TaskState.ready => (db, TaskState.readDone (claimRead db c))
  | TaskState.readDone (Except.error _) =>
      (db, TaskState.finished (Except.error ⟨500, "Internal error while creating visit"⟩))
  | TaskState.readDone (Except.ok schedule) =>
      let r := claimCommit db c schedule
      (r.1, TaskState.finished (Except.ok r.2))
  | TaskState.finished r => (db, TaskState.finished r)

/-- Two concurrent Claim requests A and B over one shared database. -/
structure RaceState where
  db : DBState
  stateA : TaskState
  stateB : TaskState
deriving DecidableEq, Repr

/-- Run one step of request A (true) or request B (false). -/
def raceStep (cA cB : ClaimCall) (which : Bool) (rs : RaceState) : RaceState :=
  if which then
    let r := taskStep cA rs.db rs.stateA
    { rs with db := r.1, stateA := r.2 }
  else
    let r := taskStep cB rs.db rs.stateB
    { rs with db := r.1, stateB := r.2 }

/-- Execute a concrete interleaving of the two requests. -/
def runRace (cA cB : ClaimCall) (schedule : List Bool) (rs : RaceState) : RaceState :=
  schedule.foldl (fun s w => raceStep cA cB w s) rs

/-- Whether an in-flight request has finished with a success response. -/
def finishedOk : TaskState → Bool
  | TaskState.finished (Except.ok _) => true
  | _ => false

/-- The overlap filter of routers/doctor.py create_schedule: an existing
slot of the same doctor on the same date whose time range intersects the
requested [start, end) range (existing.start < new.end and
existing.end > new.start). -/
def overlapFilter (doctor : String) (d : Nat) (st en : Nat)
    (sc : AppointmentSchedule) : Bool :=
  sc.doctor_id == doctor && sc.date == d
    && decide (sc.start_time < en) && decide (sc.end_time > st)

/-- routers/doctor.py create_schedule (POST /doctor/schedules, manual
single-slot creation): reject start >= end (400); require an active
availability window of this doctor (404); require the date's weekday to
equal the window's day of week (400; the source compares day names,
embedded as dayIndex equality); require the times to fall within the
window's hours (400); reject any overlapping slot of this doctor on that
date (409, or 500 via the generic exception handler if the overlap
SELECT finds several rows); otherwise insert the slot with status
available and commit. -/
def create_schedule (db : DBState) (doctor_id : String) (availability_id : Nat)
    (d : Nat) (st en : Nat) : DBState × Except HErr AppointmentSchedule :=
  if st ≥ en then
    (db, Except.error ⟨400, "Start time must be before end time"⟩)
  else
    match scalarOneOrNone
        (fun a => a.availability_id == availability_id
          && a.doctor_id == doctor_id
          && a.status == AvailabilityStatus.active)
        db.availabilities with
    | Except.error e => (db, Except.error e)
    | Except.ok none => (db, Except.error ⟨404, "Availability not found or not active"⟩)
    | Except.ok (some availability) =>
        if weekday d ≠ dayIndex availability.day_of_week then
          (db, Except.error ⟨400, "Schedule date doesn't match availability day of week"⟩)
        else if st < availability.start_time || en > availability.end_time then
          (db, Except.error ⟨400, "Schedule time must fall within availability hours"⟩)
        else
          match scalarOneOrNone (overlapFilter doctor_id d st en) db.schedules with
          | Except.error _ => (db, Except.error ⟨500, "Failed to create schedule"⟩)
          | Except.ok (some _) => (db, Except.error ⟨409, "Schedule overlaps with existing slot"⟩)
          | Except.ok none =>
              let row : AppointmentSchedule :=
                { schedule_id := db.next_schedule_id
                  doctor_id := doctor_id
                  student_id := none
                  availability_id := some availability_id
                  date := d
                  start_time := st
                  end_time := en
                  status := AppointmentStatus.available }
              ({ db with
                  schedules := db.schedules ++ [row]
                  next_schedule_id := db.next_schedule_id + 1 },
               Except.ok row)

/-- routers/doctor.py cancel_schedule
(PUT /doctor/schedules/schedule_id/cancel): fetch the slot by id (404
when absent, uncaught 500 when the id is duplicated), require the acting
doctor to own it (403), reject with HTTP 400 "Schedule is already
cancelled" when its status is cancelled, and otherwise set the status to
cancelled - whatever the previous status was - and commit. -/
def cancel_schedule (db : DBState) (doctor_id : String) (schedule_id : Nat) :
    DBState × Except HErr AppointmentSchedule :=
  match scalarOneOrNone (fun sc => sc.schedule_id == schedule_id) db.schedules with
  | Except.error e => (db, Except.error e)
  | Except.ok none => (db, Except.error ⟨404, "Schedule not found"⟩)
  | Except.ok (some schedule) =>
      if schedule.doctor_id ≠ doctor_id then
        (db, Except.error ⟨403, "Not authorized to cancel this schedule"⟩)
      else if schedule.status = AppointmentStatus.cancelled then
        (db, Except.error ⟨400, "Schedule is already cancelled"⟩)
      else
        ({ db with
            schedules := updateSchedule schedule_id
              (fun sc => { sc with status := AppointmentStatus.cancelled }) db.schedules },
         Except.ok { schedule with status := AppointmentStatus.cancelled })

/-- routers/doctor.py complete_visit (POST /doctor/visits/visit_id/complete):
select the visit with this id, owned by the acting doctor and currently
pending (404 otherwise); set its status to completed and commit; then,
if the visit carries a (truthy) schedule_id, fetch that slot and, when it
exists, set the slot's status to completed and commit again.  The visit
update is committed before the slot lookup, so a MultipleResultsFound
raise there (uncaught, HTTP 500) would still leave the visit
completed. -/
def complete_visit (db : DBState) (doctor_id : String) (visit_id : Nat) :
    DBState × Except HErr ClinicVisit :=
  match scalarOneOrNone
      (fun v => v.visit_id == visit_id && v.doctor_id == doctor_id
        && v.status == VisitStatus.pending)
      db.visits with
  | Except.error e => (db, Except.error e)
  | Except.ok none =>
      (db, Except.error ⟨404, "Visit not found, not assigned to this doctor, or not pending"⟩)
  | Except.ok (some visit) =>
      let visit1 := { visit with status := VisitStatus.completed }
      let db1 := { db with
        visits := db.visits.map (fun v => if v.visit_id == visit_id then visit1 else v) }
      if truthy visit.schedule_id then
        match scalarOneOrNone
            (fun sc => some sc.schedule_id == visit.schedule_id) db1.schedules with
        | Except.error e => (db1, Except.error e)
        | Except.ok none => (db1, Except.ok visit1)
        | Except.ok (some schedule) =>
            ({ db1 with
                schedules := updateSchedule schedule.schedule_id
                  (fun sc => { sc with status := AppointmentStatus.completed })
                  db1.schedules },
             Except.ok visit1)
      else (db1, Except.ok visit1)

/-- routers/doctor.py create_diagnosis (POST /doctor/diagnoses): select
the visit with this id owned by the acting doctor (404 otherwise,
uncaught 500 on a duplicated id); require the payload's student to match
the visit (400); insert the diagnosis row and commit; then, if the visit
carries a (truthy) schedule_id, fetch that slot and, when it exists, set
the slot's status to completed - unconditionally, whatever status the
slot had - and commit again.  The visit row itself is never modified.
The second half runs inside try/except, but the diagnosis commit has
already happened when it starts, so an error there (HTTP 500) keeps the
inserted diagnosis. -/
def create_diagnosis (db : DBState) (doctor_id : String)
    (visit_id student_id complaint_id : Nat)
    (diagnosis_description : String) (treatment_plan : Option String) :
    DBState × Except HErr DoctorDiagnosis :=
  match scalarOneOrNone
      (fun v => v.visit_id == visit_id && v.doctor_id == doctor_id) db.visits with
  | Except.error e => (db, Except.error e)
  | Except.ok none =>
      (db, Except.error ⟨404, "Visit not found or not assigned to this doctor"⟩)
  | Except.ok (some visit) =>
      if visit.student_id ≠ student_id then
        (db, Except.error ⟨400, "Student ID does not match visit"⟩)
      else
        let diagnosis : DoctorDiagnosis :=
          { diagnosis_id := db.next_diagnosis_id
            visit_id := visit_id
            student_id := student_id
            complaint_id := complaint_id
            doctor_id := doctor_id
            diagnosis_description := diagnosis_description
            treatment_plan := treatment_plan }
        let db1 := { db with
          diagnoses := db.diagnoses ++ [diagnosis]
          next_diagnosis_id := db.next_diagnosis_id + 1 }
        if truthy visit.schedule_id then
          match scalarOneOrNone
              (fun sc => some sc.schedule_id == visit.schedule_id) db1.schedules with
          | Except.error _ => (db1, Except.error ⟨500, "Error creating diagnosis"⟩)
          | Except.ok none => (db1, Except.ok diagnosis)
          | Except.ok (some schedule) =>
              ({ db1 with
                  schedules := updateSchedule schedule.schedule_id
                    (fun sc => { sc with status := AppointmentStatus.completed })
                    db1.schedules },
               Except.ok diagnosis)
        else (db1, Except.ok diagnosis)

/-- Two slots of the same doctor on the same date whose half-open time
ranges intersect. -/
def slotsOverlap (a b : AppointmentSchedule) : Bool :=
  a.doctor_id == b.doctor_id && a.date == b.date
    && decide (a.start_time < b.end_time) && decide (b.start_time < a.end_time)

/-- The per-doctor no-overlap invariant of the slot table: no two distinct
rows of the table are overlapping slots of one doctor on one date. -/
def noOverlap : List AppointmentSchedule → Bool
  | [] => true
  | a :: rest => rest.all (fun b => !slotsOverlap a b) && noOverlap rest

/-- Exact-duplicate comparison underlying the generator's idempotence: two
rows with the same (doctor, date, start, end) tuple. -/
def exactDup (sc r : AppointmentSchedule) : Bool :=
  sc.doctor_id == r.doctor_id && sc.date == r.date
    && sc.start_time == r.start_time && sc.end_time == r.end_time

/-- The content of a generated slot row, forgetting its autoincrement
primary key: (doctor, originating window, date, start, end, status). -/
def slotTuple (sc : AppointmentSchedule) :
    String × Option Nat × Nat × Nat × Nat × AppointmentStatus :=
  (sc.doctor_id, sc.availability_id, sc.date, sc.start_time, sc.end_time, sc.status)

/-- The rows generate_schedules inserts for a list of candidate tuples of
one window when none of them has a duplicate, with consecutive
autoincrement ids starting at nid. -/
def materialize (avail : Availability) : Nat → List (Nat × Nat × Nat) →
    List AppointmentSchedule
  | _, [] => []
  | nid, (d, st, en) :: rest =>
      newSlotRow avail nid d st en :: materialize avail (nid + 1) rest

/-- An endpoint outcome rejects only with the given HTTP status code and
an unchanged database: every error response carries that code and leaves
the state exactly as it was (successes are unconstrained). -/
def rejectsOnlyWith (r : DBState × Except HErr α) (db : DBState) (code : Nat) : Bool :=
  match r with
  | (db1, Except.error e) => decide (db1 = db) && decide (e.code = code)
  | (_, Except.ok _) => true

/-! Concrete states used by the counterexamples and witnesses below. -/

/-- A lone available slot of doctor D1 on next Monday (day 7), 09:00-09:20. -/
def c1_slot : AppointmentSchedule :=
  ⟨1, "D1", none, none, 7, 540, 560, AppointmentStatus.available⟩

/-- Database holding just c1_slot. -/
def c1_db : DBState := ⟨[], [c1_slot], [], [], [], 2, 1, 1, 1⟩

/-- Student 10 claims slot 1 through POST /students/complaints. -/
def c1_callA : ClaimCall := ⟨10, 1, "headache"⟩

/-- Student 20 concurrently claims slot 1 through POST /students/complaints. -/
def c1_callB : ClaimCall := ⟨20, 1, "fever"⟩

/-- The interleaving read(A), read(B), commit(A), commit(B): both requests
pass their availability SELECT before either commits. -/
def c1_final : RaceState :=
  runRace c1_callA c1_callB [true, false, true, false]
    ⟨c1_db, TaskState.ready, TaskState.ready⟩

/-- An active Monday 09:00-09:40 availability window of doctor D1. -/
def c2_w : Availability := ⟨1, "D1", DayOfWeek.Monday, 540, 580, AvailabilityStatus.active⟩

/-- Database holding only the window c2_w and an empty slot table. -/
def c2_db : DBState := ⟨[c2_w], [], [], [], [], 1, 1, 1, 1⟩

/-- The slot table state after one generator run over c2_db on day 2
(a Wednesday): two slots on next Monday, day 7, tiling 09:00-09:40. -/
def c3_db1 : DBState :=
  ⟨[c2_w],
   [⟨1, "D1", none, some 1, 7, 540, 560, AppointmentStatus.available⟩,
    ⟨2, "D1", none, some 1, 7, 560, 580, AppointmentStatus.available⟩],
   [], [], [], 3, 1, 1, 1⟩

/-- A booked-but-unassigned slot (the claimable state book_schedule
accepts) and an available slot, both of doctor D1 on day 7. -/
def c4_slot1 : AppointmentSchedule :=
  ⟨1, "D1", none, none, 7, 540, 560, AppointmentStatus.booked⟩

/-- The available slot of the c4 database. -/
def c4_slot2 : AppointmentSchedule :=
  ⟨2, "D1", none, none, 7, 560, 580, AppointmentStatus.available⟩

/-- Database holding c4_slot1 and c4_slot2 and no visits. -/
def c4_db : DBState := ⟨[], [c4_slot1, c4_slot2], [], [], [], 3, 1, 1, 1⟩

/-- The slot row after student 10 books c4_slot1. -/
def c4_retA : AppointmentSchedule :=
  ⟨1, "D1", some 10, none, 7, 540, 560, AppointmentStatus.booked⟩

/-- The visit created when student 10 books slot 1. -/
def c4_visitA : ClinicVisit := ⟨1, 10, "D1", some 1, 7, VisitStatus.pending⟩

/-- The database after student 10 books slot 1 of c4_db. -/
def c4_dbA : DBState :=
  ⟨[], [c4_retA, c4_slot2], [c4_visitA], [], [], 3, 2, 1, 1⟩

/-- The visit created when student 20 claims slot 2 through
POST /students/complaints. -/
def c4_retB : ClinicVisit := ⟨1, 20, "D1", some 2, 7, VisitStatus.pending⟩

/-- The database after student 20 claims slot 2 of c4_db with complaint
text "stomach ache". -/
def c4_dbB : DBState :=
  ⟨[], [c4_slot1, ⟨2, "D1", some 20, none, 7, 560, 580, AppointmentStatus.booked⟩],
   [c4_retB], [⟨1, 1, 20, "stomach ache"⟩], [], 3, 2, 2, 1⟩

/-- A database with an empty slot table: any Claim names a nonexistent
slot id. -/
def c5_db : DBState := ⟨[], [], [], [], [], 1, 1, 1, 1⟩

/-- A slot of doctor D1 that has already reached status completed. -/
def c6_slot : AppointmentSchedule :=
  ⟨1, "D1", some 10, none, 7, 540, 560, AppointmentStatus.completed⟩

/-- Database holding the completed slot c6_slot. -/
def c6_db : DBState := ⟨[], [c6_slot], [], [], [], 2, 1, 1, 1⟩

/-- A slot of doctor D1 that is already cancelled. -/
def c6c_slot : AppointmentSchedule :=
  ⟨1, "D1", some 10, none, 7, 540, 560, AppointmentStatus.cancelled⟩

/-- Database holding the cancelled slot c6c_slot. -/
def c6c_db : DBState := ⟨[], [c6c_slot], [], [], [], 2, 1, 1, 1⟩

/-- A pending visit of student 10 with doctor D1, linked to slot 1. -/
def c7_visit : ClinicVisit := ⟨1, 10, "D1", some 1, 7, VisitStatus.pending⟩

/-- Database with the booked slot 1 and its pending visit c7_visit. -/
def c7_db : DBState :=
  ⟨[], [⟨1, "D1", some 10, none, 7, 540, 560, AppointmentStatus.booked⟩],
   [c7_visit], [], [], 2, 2, 1, 1⟩

/-- The slot of c7_db after the visit is completed. -/
def c7_sc : AppointmentSchedule :=
  ⟨1, "D1", some 10, none, 7, 540, 560, AppointmentStatus.completed⟩

/-- The database after doctor D1 completes visit 1 of c7_db: the visit
and its slot both reach status completed. -/
def c7_db1 : DBState :=
  ⟨[], [c7_sc], [⟨1, 10, "D1", some 1, 7, VisitStatus.completed⟩], [], [], 2, 2, 1, 1⟩

/-- An active Monday 09:00-10:00 window of doctor D1. -/
def c9_w : Availability := ⟨1, "D1", DayOfWeek.Monday, 540, 600, AvailabilityStatus.active⟩

/-- Database with the window c9_w and an empty slot table, from which the
doctor manually creates a slot. -/
def c9_db0 : DBState := ⟨[c9_w], [], [], [], [], 1, 1, 1, 1⟩

/-- The manually created slot 09:10-09:30 on next Monday (day 7), inside
the window's hours but not aligned to its 20-minute grid. -/
def c9_manual : AppointmentSchedule :=
  ⟨1, "D1", none, some 1, 7, 550, 570, AppointmentStatus.available⟩

/-- Database state after the manual creation: window c9_w plus the slot
c9_manual; it satisfies the per-doctor no-overlap invariant. -/
def c9_db : DBState := ⟨[c9_w], [c9_manual], [], [], [], 2, 1, 1, 1⟩

/-- The state after a generator run on day 2 over c9_db0: the three
20-minute tiles of the Monday 09:00-10:00 window on next Monday. -/
def c9_gen_db : DBState :=
  ⟨[c9_w],
   [⟨1, "D1", none, some 1, 7, 540, 560, AppointmentStatus.available⟩,
    ⟨2, "D1", none, some 1, 7, 560, 580, AppointmentStatus.available⟩,
    ⟨3, "D1", none, some 1, 7, 580, 600, AppointmentStatus.available⟩],
   [], [], [], 4, 1, 1, 1⟩

/-- A cancelled slot of doctor D1 referenced by a still-pending visit. -/
def c10_slot : AppointmentSchedule :=
  ⟨1, "D1", some 10, none, 7, 540, 560, AppointmentStatus.cancelled⟩

/-- The pending visit linked to the cancelled slot c10_slot. -/
def c10_visit : ClinicVisit := ⟨1, 10, "D1", some 1, 7, VisitStatus.pending⟩

/-- Database holding c10_slot and c10_visit. -/
def c10_db : DBState := ⟨[], [c10_slot], [c10_visit], [], [], 2, 2, 1, 1⟩

/-- The diagnosis doctor D1 records on visit 1 of c10_db. -/
def c10_diag : DoctorDiagnosis := ⟨1, 1, 10, 1, "D1", "flu", none⟩

/-- The slot of c10_db after the diagnosis is created: completed, even
though it was cancelled before and the visit is still pending. -/
def c10_sc : AppointmentSchedule :=
  ⟨1, "D1", some 10, none, 7, 540, 560, AppointmentStatus.completed⟩

/-- The database after the diagnosis on c10_db: the cancelled slot has
been forced to completed while the visit stays pending. -/
def c10_db1 : DBState :=
  ⟨[], [c10_sc], [c10_visit], [], [c10_diag], 2, 2, 1, 2⟩

/-!  Helper lemmas shared by the claim theorems. -/

/-- scalar_one_or_none returns none exactly when no row matches. -/
theorem scalarOneOrNone_ok_none_iff (p : α → Bool) (rows : List α) :
    scalarOneOrNone p rows = Except.ok none ↔ rows.filter p = [] := by
  rcases h : rows.filter p with _ | ⟨a, _ | ⟨b, t⟩⟩ <;> simp [scalarOneOrNone, h]

/-- scalar_one_or_none returns a row exactly when it is the unique match. -/
theorem scalarOneOrNone_ok_some_iff (p : α → Bool) (rows : List α) (r : α) :
    scalarOneOrNone p rows = Except.ok (some r) ↔ rows.filter p = [r] := by
  rcases h : rows.filter p with _ | ⟨a, _ | ⟨b, t⟩⟩ <;> simp [scalarOneOrNone, h]

/-- A unique filter match belongs to the list and satisfies the filter. -/
theorem filter_singleton_mem {p : α → Bool} {l : List α} {a : α}
    (h : l.filter p = [a]) : a ∈ l ∧ p a = true := by
  have ha : a ∈ l.filter p := by rw [h]; exact List.mem_singleton_self a
  exact List.mem_filter.mp ha

/-- Closed form of the fuelled generation loop: with enough fuel it emits
the 20-minute tiles fitting inside [slot_start, e). -/
theorem expandLoop_closed (e n : Nat) :
    ∀ s : Nat, e - s ≤ n →
      expandLoop e n s =
        (List.range ((e - s) / 20)).map (fun i => (s + 20 * i, s + 20 * i + 20)) := by
  induction n with
  | zero =>
      intro s hle
      have h2 : (e - s) / 20 = 0 := by omega
      rw [expandLoop, h2]
      simp
  | succ n ih =>
      intro s hle
      by_cases h : s + 20 ≤ e
      · have hlt : s < e := by omega
        have hdiv : (e - s) / 20 = (e - (s + 20)) / 20 + 1 := by
          have he : e - s = (e - (s + 20)) + 20 := by omega
          rw [he, Nat.add_div_right _ (by norm_num)]
        rw [expandLoop]
        simp only [hlt, if_true, show ¬ s + 20 > e by omega, if_false]
        rw [ih (s + 20) (by omega), hdiv, List.range_succ_eq_map]
        simp only [List.map_cons, List.map_map, Nat.mul_zero, Nat.add_zero]
        congr 1
        apply List.map_congr_left
        intro i _
        simp only [Function.comp_apply, Prod.mk.injEq]
        omega
      · have h2 : (e - s) / 20 = 0 := by omega
        rw [expandLoop, h2]
        by_cases hlt : s < e
        · simp only [hlt, if_true, show s + 20 > e by omega, if_true]
          simp
        · simp [hlt]

/-- Closed form of the generation while loop: for a window [s, e) it emits
exactly the tiles (s + 20i, s + 20i + 20) for i below (e - s) / 20. -/
theorem expand_window_closed (s e : Nat) :
    expand_window s e =
      (List.range ((e - s) / 20)).map (fun i => (s + 20 * i, s + 20 * i + 20)) :=
  expandLoop_closed e (e - s) s (Nat.le_refl _)

/-- Every date the generator selects for a window lies in the coming
Monday-to-Sunday week and falls on the requested day of the week. -/
theorem get_next_week_dates_sound (today : Nat) (day : DayOfWeek) (d : Nat)
    (hd : d ∈ get_next_week_dates_for_day today day) :
    today + (7 - weekday today) ≤ d ∧ d < today + (7 - weekday today) + 7 ∧
      weekday d = dayIndex day := by
  simp only [get_next_week_dates_for_day, List.mem_filter, List.mem_map,
    List.mem_range, beq_iff_eq] at hd
  obtain ⟨⟨i, hi, rfl⟩, hwd⟩ := hd
  exact ⟨by omega, by omega, hwd⟩

/-- C1: concurrency of Claim.  The spec requires that of two concurrent
Claim calls on one available slot exactly one succeeds, the other
receives Conflict, and the slot ends booked with exactly one linked
Visit.  The code has no row lock and no compare-and-swap: under the
asyncio interleaving read(A), read(B), commit(A), commit(B) - realizable
because every SELECT and commit is an await point and Postgres read
committed does not block B's SELECT before A's commit - both
create_visit_and_complaint requests succeed and the slot ends with two
linked pending visits.  This evaluates the code's own read and commit
phases at that failing interleaving. -/
theorem claim_concurrent_double_booking :
    finishedOk c1_final.stateA = true ∧ finishedOk c1_final.stateB = true ∧
    (c1_final.db.visits.filter (fun v => v.schedule_id == some 1)).length = 2 ∧
    c1_final.db.schedules.map (fun sc => sc.status) = [AppointmentStatus.booked] ∧
    c1_final.db.schedules.map (fun sc => sc.student_id) = [some 20] := by
  decide

/-- C5 counterexample: the claim says a Claim naming a nonexistent slot id
fails with NotFound and a claimed slot with Conflict, surfaced as those
typed rejections.  On an empty slot table (slot id 1 does not exist),
book_schedule answers HTTP 400 - its one undifferentiated rejection for
not-found, already-booked and unavailable alike - and
create_visit_and_complaint answers HTTP 500, because its blanket
try/except re-raises its own typed 404 as an internal error. -/
theorem claim_failure_codes_counterexample :
    book_schedule c5_db 10 1 =
      (c5_db, Except.error ⟨400, "Schedule not found, already booked, or unavailable"⟩) ∧
    create_visit_and_complaint c5_db 10 1 "sore throat" =
      (c5_db, Except.error ⟨500, "Internal error while creating visit"⟩) := by
  decide

/-- C6 counterexample: the claim says Cancel succeeds only from
{available, booked, pending}, so a completed slot can never be
cancelled.  cancel_schedule only rejects status cancelled: on the
completed slot c6_slot it succeeds and moves the slot to cancelled. -/
theorem cancel_completed_counterexample :
    c6_slot.status = AppointmentStatus.completed ∧
    cancel_schedule c6_db "D1" 1 =
      ({ c6_db with
          schedules := [{ c6_slot with status := AppointmentStatus.cancelled }] },
       Except.ok { c6_slot with status := AppointmentStatus.cancelled }) := by
  decide

/-- C9 counterexample: the claim says bulk generation preserves the
per-doctor no-overlap invariant from any state satisfying it.  Starting
from the invariant-satisfying, reachable state c9_db - produced by the
doctor manually creating the 09:10-09:30 slot inside the Monday
09:00-10:00 window via create_schedule - a generator run on day 2 adds
the grid slot 09:00-09:20 for next Monday, because the duplicate check
only compares exact (doctor, date, start, end) tuples; the resulting
table violates the invariant. -/
theorem generator_overlap_counterexample :
    create_schedule c9_db0 "D1" 1 7 550 570 = (c9_db, Except.ok c9_manual) ∧
    noOverlap c9_db.schedules = true ∧
    (generate_schedules 2 c9_db).2 = Except.ok () ∧
    noOverlap (generate_schedules 2 c9_db).1.schedules = false := by
  decide

/-- C8: the Slot Cleaner run on date today removes exactly the slots
dated strictly before today whose status is still available; every other
slot - booked, completed or cancelled slots of any date, and any slot
dated today or later - stays in the table. -/
theorem cleaner_deletes_exactly_stale_available (today : Nat) (db : DBState)
    (sc : AppointmentSchedule) :
    sc ∈ (cleanup_past_schedules today db).1.schedules ↔
      sc ∈ db.schedules ∧
        ¬(sc.date < today ∧ sc.status = AppointmentStatus.available) := by
  simp only [cleanup_past_schedules, List.mem_filter]
  constructor
  · rintro ⟨hmem, hcond⟩
    refine ⟨hmem, fun hboth => ?_⟩
    simp [hboth.1, hboth.2] at hcond
  · rintro ⟨hmem, hcond⟩
    refine ⟨hmem, ?_⟩
    by_cases hd : sc.date < today
    · by_cases hs : sc.status = AppointmentStatus.available
      · exact absurd ⟨hd, hs⟩ hcond
      · simp [hd, hs]
    · simp [hd]

/-- With an empty committed table every candidate is inserted: the run
appends exactly the materialized candidate rows, ids continuing the
autoincrement counter. -/
theorem processCandidates_nil_committed (a : Availability) :
    ∀ (cands : List (Nat × Nat × Nat)) (db : DBState),
      processCandidates [] a cands db =
        Except.ok { db with
          schedules := db.schedules ++ materialize a db.next_schedule_id cands
          next_schedule_id := db.next_schedule_id + cands.length } := by
  intro cands
  induction cands with
  | nil => intro db; simp [processCandidates, materialize]
  | cons t rest ih =>
      obtain ⟨d, st, en⟩ := t
      intro db
      rw [processCandidates]
      simp only [scalarOneOrNone, List.filter_nil]
      rw [ih]
      simp [materialize]
      omega

/-- The content tuples of the materialized rows are the candidates. -/
theorem materialize_slotTuple (a : Availability) :
    ∀ (cands : List (Nat × Nat × Nat)) (nid : Nat),
      (materialize a nid cands).map slotTuple =
        cands.map (fun t =>
          (a.doctor_id, some a.availability_id, t.1, t.2.1, t.2.2,
           AppointmentStatus.available)) := by
  intro cands
  induction cands with
  | nil => intro nid; rfl
  | cons t rest ih =>
      obtain ⟨d, st, en⟩ := t
      intro nid
      simp [materialize, newSlotRow, slotTuple, ih]

/-- C2: a generator run over one active window with start s before end e
and an empty slot table succeeds, and the inserted rows are, for each
selected date, exactly the floor((e-s)/20) consecutive 20-minute tiles
starting at s - no gaps, no overlaps, trailing remainder discarded - and
every selected date lies in the coming Monday-to-Sunday week on the
window's day of the week. -/
theorem generator_tiling (today : Nat) (w : Availability) (db : DBState) (dte : Nat)
    (hact : w.status = AvailabilityStatus.active)
    (hlt : w.start_time < w.end_time)
    (havail : db.availabilities = [w])
    (hempty : db.schedules = [])
    (hdte : dte ∈ get_next_week_dates_for_day today w.day_of_week) :
    (generate_schedules today db).2 = Except.ok () ∧
    (generate_schedules today db).1.schedules.map slotTuple =
      (get_next_week_dates_for_day today w.day_of_week).flatMap (fun d =>
        (List.range ((w.end_time - w.start_time) / 20)).map (fun i =>
          (w.doctor_id, some w.availability_id, d,
           w.start_time + 20 * i, w.start_time + 20 * i + 20,
           AppointmentStatus.available))) ∧
    today + (7 - weekday today) ≤ dte ∧
    dte < today + (7 - weekday today) + 7 ∧
    weekday dte = dayIndex w.day_of_week := by
  have hrun : generate_avail db.schedules today
      (db.availabilities.filter (fun a => a.status == AvailabilityStatus.active)) db =
      Except.ok { db with
        schedules := db.schedules ++ materialize w db.next_schedule_id
          (candidate_slots today w)
        next_schedule_id := db.next_schedule_id + (candidate_slots today w).length } := by
    simp only [havail, List.filter, hact, beq_self_eq_true, generate_avail,
      hempty, processCandidates_nil_committed]
  have hsound := get_next_week_dates_sound today w.day_of_week dte hdte
  refine ⟨?_, ?_, hsound.1, hsound.2.1, hsound.2.2⟩
  · rw [generate_schedules, hrun]
  · rw [generate_schedules, hrun]
    simp only [hempty, List.nil_append, materialize_slotTuple]
    simp [candidate_slots, expand_window_closed, List.map_flatMap, List.map_map,
      Function.comp_def]

/-- C2 witness: doctor D1's active Monday 09:00-09:40 window (40 minutes),
generated on day 2 (a Wednesday): the run succeeds and produces exactly
the two slots 09:00-09:20 and 09:20-09:40 on next Monday, day 7. -/
theorem generator_tiling_witness :
    (c2_w.status = AvailabilityStatus.active ∧ c2_w.start_time < c2_w.end_time ∧
     c2_db.availabilities = [c2_w] ∧ c2_db.schedules = [] ∧
     7 ∈ get_next_week_dates_for_day 2 c2_w.day_of_week) ∧
    ((generate_schedules 2 c2_db).2 = Except.ok () ∧
     (generate_schedules 2 c2_db).1.schedules.map slotTuple =
       (get_next_week_dates_for_day 2 c2_w.day_of_week).flatMap (fun d =>
         (List.range ((c2_w.end_time - c2_w.start_time) / 20)).map (fun i =>
           (c2_w.doctor_id, some c2_w.availability_id, d,
            c2_w.start_time + 20 * i, c2_w.start_time + 20 * i + 20,
            AppointmentStatus.available))) ∧
     2 + (7 - weekday 2) ≤ 7 ∧ 7 < 2 + (7 - weekday 2) + 7 ∧
     weekday 7 = dayIndex c2_w.day_of_week) :=
  ⟨⟨by decide, by decide, by decide, by decide, by decide⟩,
   generator_tiling 2 c2_w c2_db 7 (by decide) (by decide) (by decide) (by decide)
     (by decide)⟩

/-- A successful candidate pass only appends rows, each free of any exact
(doctor, date, start, end) duplicate in the committed table, and leaves
every other table untouched. -/
theorem processCandidates_decomp (committed : List AppointmentSchedule) (a : Availability) :
    ∀ (cands : List (Nat × Nat × Nat)) (db db1 : DBState),
      processCandidates committed a cands db = Except.ok db1 →
      (∃ l, db1.schedules = db.schedules ++ l ∧
        ∀ r ∈ l, ∀ sc ∈ committed, exactDup sc r = false) ∧
      db1.availabilities = db.availabilities ∧ db1.visits = db.visits ∧
      db1.complaints = db.complaints ∧ db1.diagnoses = db.diagnoses := by
  intro cands
  induction cands with
  | nil =>
      intro db db1 h
      rw [processCandidates] at h
      cases h
      exact ⟨⟨[], by simp, by simp⟩, rfl, rfl, rfl, rfl⟩
  | cons t rest ih =>
      obtain ⟨d, st, en⟩ := t
      intro db db1 h
      rw [processCandidates] at h
      split at h
      · exact absurd h (by simp)
      · exact ih db db1 h
      · rename_i heq
        obtain ⟨⟨l, hl, hdup⟩, hav, hvi, hco, hdi⟩ := ih _ db1 h
        refine ⟨⟨newSlotRow a db.next_schedule_id d st en :: l, ?_, ?_⟩,
          hav, hvi, hco, hdi⟩
        · rw [hl]; simp
        · intro r hr sc hsc
          rcases List.mem_cons.mp hr with rfl | hrl
          · have hnil := (scalarOneOrNone_ok_none_iff _ _).mp heq
            have := List.filter_eq_nil_iff.mp hnil sc hsc
            simpa [exactDup, dupFilter, newSlotRow] using this
          · exact hdup r hrl sc hsc

/-- A successful candidate pass never removes a row. -/
theorem processCandidates_mono (committed : List AppointmentSchedule) (a : Availability)
    (cands : List (Nat × Nat × Nat)) (db db1 : DBState)
    (h : processCandidates committed a cands db = Except.ok db1) :
    ∀ sc ∈ db.schedules, sc ∈ db1.schedules := by
  obtain ⟨⟨l, hl, _⟩, _⟩ := processCandidates_decomp committed a cands db db1 h
  rw [hl]
  exact fun sc hsc => List.mem_append_left _ hsc

/-- After a successful candidate pass, every processed candidate tuple has
a matching row in the final table: either its pre-existing duplicate or
the row the pass inserted. -/
theorem processCandidates_covers (committed : List AppointmentSchedule) (a : Availability) :
    ∀ (cands : List (Nat × Nat × Nat)) (db db1 : DBState),
      processCandidates committed a cands db = Except.ok db1 →
      (∀ sc ∈ committed, sc ∈ db.schedules) →
      ∀ t ∈ cands, ∃ sc ∈ db1.schedules,
        dupFilter a.doctor_id t.1 t.2.1 t.2.2 sc = true := by
  intro cands
  induction cands with
  | nil => intro db db1 _ _ t ht; exact absurd ht (List.not_mem_nil t)
  | cons t0 rest ih =>
      obtain ⟨d, st, en⟩ := t0
      intro db db1 h hsub t ht
      rw [processCandidates] at h
      split at h
      · exact absurd h (by simp)
      · rename_i r heq
        rcases List.mem_cons.mp ht with rfl | htr
        · obtain ⟨hrmem, hrp⟩ :=
            filter_singleton_mem ((scalarOneOrNone_ok_some_iff _ _ _).mp heq)
          exact ⟨r, processCandidates_mono committed a rest db db1 h r (hsub r hrmem), hrp⟩
        · exact ih db db1 h hsub t htr
      · rcases List.mem_cons.mp ht with rfl | htr
        · refine ⟨newSlotRow a db.next_schedule_id d st en,
            processCandidates_mono committed a rest _ db1 h _ ?_, ?_⟩
          · exact List.mem_append_right _ (List.mem_singleton_self _)
          · simp [dupFilter, newSlotRow]
        · refine ih _ db1 h (fun sc hsc => List.mem_append_left _ (hsub sc hsc)) t htr

/-- When every candidate already has a match in the committed table, the
pass inserts nothing: it returns the state unchanged or aborts on a
MultipleResultsFound raise. -/
theorem processCandidates_noop (committed : List AppointmentSchedule) (a : Availability) :
    ∀ (cands : List (Nat × Nat × Nat)) (db : DBState),
      (∀ t ∈ cands, committed.filter (dupFilter a.doctor_id t.1 t.2.1 t.2.2) ≠ []) →
      processCandidates committed a cands db = Except.ok db ∨
        ∃ e, processCandidates committed a cands db = Except.error e := by
  intro cands
  induction cands with
  | nil => intro db _; left; rfl
  | cons t0 rest ih =>
      obtain ⟨d, st, en⟩ := t0
      intro db hcov
      rw [processCandidates]
      rcases hfil : committed.filter (dupFilter a.doctor_id d st en) with _ | ⟨r, _ | ⟨r2, tail⟩⟩
      · exact absurd hfil (hcov (d, st, en) (List.mem_cons_self _ _))
      · have hscal : scalarOneOrNone (dupFilter a.doctor_id d st en) committed =
            Except.ok (some r) := by
          simp [scalarOneOrNone, hfil]
        rw [hscal]
        exact ih db (fun t htr => hcov t (List.mem_cons_of_mem _ htr))
      · have hscal : scalarOneOrNone (dupFilter a.doctor_id d st en) committed =
            Except.error ⟨500, "Internal Server Error"⟩ := by
          simp [scalarOneOrNone, hfil]
        rw [hscal]
        exact Or.inr ⟨_, rfl⟩

/-- A successful generator loop over the windows only appends schedule
rows, each free of any exact duplicate in the committed table, and
leaves every other table untouched. -/
theorem generate_avail_decomp (committed : List AppointmentSchedule) (today : Nat) :
    ∀ (avails : List Availability) (db db1 : DBState),
      generate_avail committed today avails db = Except.ok db1 →
      (∃ l, db1.schedules = db.schedules ++ l ∧
        ∀ r ∈ l, ∀ sc ∈ committed, exactDup sc r = false) ∧
      db1.availabilities = db.availabilities ∧ db1.visits = db.visits ∧
      db1.complaints = db.complaints ∧ db1.diagnoses = db.diagnoses := by
  intro avails
  induction avails with
  | nil =>
      intro db db1 h
      rw [generate_avail] at h
      cases h
      exact ⟨⟨[], by simp, by simp⟩, rfl, rfl, rfl, rfl⟩
  | cons a rest ih =>
      intro db db1 h
      rw [generate_avail] at h
      split at h
      · exact absurd h (by simp)
      · rename_i dbm heq
        obtain ⟨⟨l1, hl1, hdup1⟩, hav1, hvi1, hco1, hdi1⟩ :=
          processCandidates_decomp committed a (candidate_slots today a) db dbm heq
        obtain ⟨⟨l2, hl2, hdup2⟩, hav2, hvi2, hco2, hdi2⟩ := ih dbm db1 h
        refine ⟨⟨l1 ++ l2, ?_, ?_⟩, by rw [hav2, hav1], by rw [hvi2, hvi1],
          by rw [hco2, hco1], by rw [hdi2, hdi1]⟩
        · rw [hl2, hl1, List.append_assoc]
        · intro r hr sc hsc
          rcases List.mem_append.mp hr with h1 | h2
          · exact hdup1 r h1 sc hsc
          · exact hdup2 r h2 sc hsc

/-- A successful generator loop never removes a schedule row. -/
theorem generate_avail_mono (committed : List AppointmentSchedule) (today : Nat)
    (avails : List Availability) (db db1 : DBState)
    (h : generate_avail committed today avails db = Except.ok db1) :
    ∀ sc ∈ db.schedules, sc ∈ db1.schedules := by
  obtain ⟨⟨l, hl, _⟩, _⟩ := generate_avail_decomp committed today avails db db1 h
  rw [hl]
  exact fun sc hsc => List.mem_append_left _ hsc

/-- After a successful generator loop, every candidate tuple of every
processed window has a matching row in the final table. -/
theorem generate_avail_covers (committed : List AppointmentSchedule) (today : Nat) :
    ∀ (avails : List Availability) (db db1 : DBState),
      generate_avail committed today avails db = Except.ok db1 →
      (∀ sc ∈ committed, sc ∈ db.schedules) →
      ∀ a ∈ avails, ∀ t ∈ candidate_slots today a,
        ∃ sc ∈ db1.schedules, dupFilter a.doctor_id t.1 t.2.1 t.2.2 sc = true := by
  intro avails
  induction avails with
  | nil => intro db db1 _ _ a ha; exact absurd ha (List.not_mem_nil a)
  | cons a0 rest ih =>
      intro db db1 h hsub a ha t ht
      rw [generate_avail] at h
      split at h
      · exact absurd h (by simp)
      · rename_i dbm heq
        rcases List.mem_cons.mp ha with rfl | har
        · obtain ⟨sc, hscm, hscp⟩ :=
            processCandidates_covers committed a (candidate_slots today a) db dbm
              heq hsub t ht
          exact ⟨sc, generate_avail_mono committed today rest dbm db1 h sc hscm, hscp⟩
        · refine ih dbm db1 h ?_ a har t ht
          exact fun sc hsc =>
            processCandidates_mono committed a0 (candidate_slots today a0) db dbm heq
              sc (hsub sc hsc)

/-- When every candidate of every window already has a match in the
committed table, the generator loop inserts nothing: it returns the
state unchanged or aborts on a MultipleResultsFound raise. -/
theorem generate_avail_noop (committed : List AppointmentSchedule) (today : Nat) :
    ∀ (avails : List Availability) (db : DBState),
      (∀ a ∈ avails, ∀ t ∈ candidate_slots today a,
        committed.filter (dupFilter a.doctor_id t.1 t.2.1 t.2.2) ≠ []) →
      generate_avail committed today avails db = Except.ok db ∨
        ∃ e, generate_avail committed today avails db = Except.error e := by
  intro avails
  induction avails with
  | nil => intro db _; left; rfl
  | cons a rest ih =>
      intro db hcov
      rw [generate_avail]
      rcases processCandidates_noop committed a (candidate_slots today a) db
          (hcov a (List.mem_cons_self _ _)) with hok | ⟨e, herr⟩
      · rw [hok]
        exact ih db (fun a1 ha1 => hcov a1 (List.mem_cons_of_mem _ ha1))
      · rw [herr]
        exact Or.inr ⟨e, rfl⟩

/-- C3: running the Slot Generator twice in a row against an unchanged
set of availability windows leaves the slot table identical to running
it once.  After a successful first run every candidate tuple has a
matching row, so the second run's duplicate check never comes back
empty: the second run either returns the state entirely unchanged or
aborts before its commit (MultipleResultsFound on a duplicated tuple),
and in both cases inserts zero additional slot rows. -/
theorem generator_idempotent (today : Nat) (db db1 : DBState)
    (h : generate_schedules today db = (db1, Except.ok ())) :
    generate_schedules today db1 = (db1, Except.ok ()) ∨
      ∃ e, generate_schedules today db1 = (db1, Except.error e) := by
  have hg : generate_avail db.schedules today
      (db.availabilities.filter (fun a => a.status == AvailabilityStatus.active)) db =
      Except.ok db1 := by
    rw [generate_schedules] at h
    rcases hcase : generate_avail db.schedules today
        (db.availabilities.filter (fun a => a.status == AvailabilityStatus.active)) db with
      e | dbx
    · rw [hcase] at h
      simp at h
    · rw [hcase] at h
      simp only [Prod.mk.injEq] at h
      rw [h.1]
  have hav : db1.availabilities = db.availabilities :=
    (generate_avail_decomp _ today _ db db1 hg).2.1
  have hcov := generate_avail_covers db.schedules today
    (db.availabilities.filter (fun a => a.status == AvailabilityStatus.active))
    db db1 hg (fun sc hsc => hsc)
  have hne : ∀ a ∈ db.availabilities.filter
        (fun a => a.status == AvailabilityStatus.active),
      ∀ t ∈ candidate_slots today a,
        db1.schedules.filter (dupFilter a.doctor_id t.1 t.2.1 t.2.2) ≠ [] := by
    intro a ha t ht
    obtain ⟨sc, hscm, hscp⟩ := hcov a ha t ht
    have : sc ∈ db1.schedules.filter (dupFilter a.doctor_id t.1 t.2.1 t.2.2) :=
      List.mem_filter.mpr ⟨hscm, hscp⟩
    exact List.ne_nil_of_mem this
  rcases generate_avail_noop db1.schedules today
      (db.availabilities.filter (fun a => a.status == AvailabilityStatus.active))
      db1 hne with hok | ⟨e, herr⟩
  · left
    rw [generate_schedules, hav, hok]
  · right
    refine ⟨e, ?_⟩
    rw [generate_schedules, hav, herr]

/-- C3 witness: generating once over the Monday 09:00-09:40 window from
an empty table yields c3_db1; the second run over the unchanged windows
returns c3_db1 untouched. -/
theorem generator_idempotent_witness :
    generate_schedules 2 c2_db = (c3_db1, Except.ok ()) ∧
    (generate_schedules 2 c3_db1 = (c3_db1, Except.ok ()) ∨
      ∃ e, generate_schedules 2 c3_db1 = (c3_db1, Except.error e)) :=
  ⟨by decide, generator_idempotent 2 c2_db c3_db1 (by decide)⟩

/-- A successful run of generate_schedules is a successful inner loop over
the active windows, checking duplicates against the pre-run table. -/
theorem generate_schedules_ok_inner (today : Nat) (db db1 : DBState)
    (h : generate_schedules today db = (db1, Except.ok ())) :
    generate_avail db.schedules today
      (db.availabilities.filter (fun a => a.status == AvailabilityStatus.active)) db =
      Except.ok db1 := by
  rw [generate_schedules] at h
  rcases hcase : generate_avail db.schedules today
      (db.availabilities.filter (fun a => a.status == AvailabilityStatus.active)) db with
    e | dbx
  · rw [hcase] at h
    simp at h
  · rw [hcase] at h
    simp only [Prod.mk.injEq] at h
    rw [h.1]

/-- Appending a slot that overlaps no existing row preserves the
per-doctor no-overlap invariant. -/
theorem noOverlap_append_singleton :
    ∀ (l : List AppointmentSchedule) (row : AppointmentSchedule),
      noOverlap l = true → (∀ sc ∈ l, slotsOverlap sc row = false) →
      noOverlap (l ++ [row]) = true := by
  intro l
  induction l with
  | nil => intro row _ _; rfl
  | cons a rest ih =>
      intro row hno hrow
      rw [noOverlap] at hno
      simp only [Bool.and_eq_true] at hno
      obtain ⟨hall, hrest⟩ := hno
      rw [List.cons_append, noOverlap]
      simp only [Bool.and_eq_true]
      refine ⟨?_, ih row hrest (fun sc hsc => hrow sc (List.mem_cons_of_mem _ hsc))⟩
      rw [List.all_append]
      simp only [Bool.and_eq_true]
      refine ⟨hall, ?_⟩
      simp [hrow a (List.mem_cons_self _ _)]

/-- C9 amended: of the two slot-creating operations only manual creation
preserves the per-doctor no-overlap invariant; bulk generation
guarantees the weaker property that it only appends rows without an
exact (doctor, date, start, end) duplicate, so it may insert slots
overlapping existing slots with different boundaries. -/
theorem slot_creation_amended (db dbm dbg : DBState) (doc : String) (aid : Nat)
    (d st en : Nat) (row : AppointmentSchedule) (today : Nat)
    (hno : noOverlap db.schedules = true)
    (hm : create_schedule db doc aid d st en = (dbm, Except.ok row))
    (hg : generate_schedules today db = (dbg, Except.ok ())) :
    noOverlap dbm.schedules = true ∧
    ∃ l, dbg.schedules = db.schedules ++ l ∧
      ∀ r ∈ l, ∀ sc ∈ db.schedules, exactDup sc r = false := by
  constructor
  · rw [create_schedule] at hm
    split at hm
    · exact absurd hm (by simp)
    · split at hm
      · exact absurd hm (by simp)
      · exact absurd hm (by simp)
      · split at hm
        · exact absurd hm (by simp)
        · split at hm
          · exact absurd hm (by simp)
          · split at hm
            · exact absurd hm (by simp)
            · exact absurd hm (by simp)
            · rename_i heq
              simp only [Prod.mk.injEq] at hm
              rw [← hm.1]
              simp only
              have hnil := (scalarOneOrNone_ok_none_iff _ _).mp heq
              have hnone := List.filter_eq_nil_iff.mp hnil
              refine noOverlap_append_singleton db.schedules _ hno ?_
              intro sc hsc
              have := hnone sc hsc
              simpa [overlapFilter, slotsOverlap] using this
  · have hinner := generate_schedules_ok_inner today db dbg hg
    exact (generate_avail_decomp db.schedules today _ db dbg hinner).1

/-- C9 amended witness: from the window-only state c9_db0 the manual
creation of the 09:10-09:30 slot preserves no-overlap, and the generator
run appends only rows without an exact duplicate. -/
theorem slot_creation_amended_witness :
    (noOverlap c9_db0.schedules = true ∧
     create_schedule c9_db0 "D1" 1 7 550 570 = (c9_db, Except.ok c9_manual) ∧
     generate_schedules 2 c9_db0 = (c9_gen_db, Except.ok ())) ∧
    (noOverlap c9_db.schedules = true ∧
     ∃ l, c9_gen_db.schedules = c9_db0.schedules ++ l ∧
       ∀ r ∈ l, ∀ sc ∈ c9_db0.schedules, exactDup sc r = false) :=
  ⟨⟨by decide, by decide, by decide⟩,
   slot_creation_amended c9_db0 c9_db c9_gen_db "D1" 1 7 550 570 c9_manual 2
     (by decide) (by decide) (by decide)⟩

/-- C4: a successful Claim - through either endpoint - leaves the slot
with the claiming student as patient and status booked, and creates a
new pending Visit linked to that slot whose visit date equals the slot's
date.  slA and slB name the claimable rows the two requests matched
(for book_schedule: status booked with no student assigned, the
claimable state of the source's dual-status design; for
create_visit_and_complaint: status available); the freshness hypothesis
is the autoincrement invariant that existing visit ids are below the
counter. -/
theorem claim_success_poststate (db dbA dbB : DBState) (stA stB sidA sidB : Nat)
    (cdesc : String) (retA : AppointmentSchedule) (retB : ClinicVisit)
    (slA slB : AppointmentSchedule)
    (hfresh : ∀ v ∈ db.visits, v.visit_id < db.next_visit_id)
    (hA : book_schedule db stA sidA = (dbA, Except.ok retA))
    (hfA : db.schedules.filter (fun sc => sc.schedule_id == sidA
      && sc.student_id.isNone && sc.status == AppointmentStatus.booked) = [slA])
    (hB : create_visit_and_complaint db stB sidB cdesc = (dbB, Except.ok retB))
    (hfB : db.schedules.filter (fun sc => sc.schedule_id == sidB
      && sc.status == AppointmentStatus.available) = [slB]) :
    (retA = { slA with student_id := some stA } ∧
     retA.student_id = some stA ∧
     retA.status = AppointmentStatus.booked ∧
     retA ∈ dbA.schedules ∧
     dbA.visits = db.visits ++
       [⟨db.next_visit_id, stA, slA.doctor_id, some slA.schedule_id, slA.date,
         VisitStatus.pending⟩] ∧
     (⟨db.next_visit_id, stA, slA.doctor_id, some slA.schedule_id, slA.date,
       VisitStatus.pending⟩ : ClinicVisit) ∉ db.visits) ∧
    (retB = ⟨db.next_visit_id, stB, slB.doctor_id, some slB.schedule_id, slB.date,
       VisitStatus.pending⟩ ∧
     retB.schedule_id = some sidB ∧
     retB.status = VisitStatus.pending ∧
     retB.visit_date = slB.date ∧
     { slB with student_id := some stB, status := AppointmentStatus.booked }
       ∈ dbB.schedules ∧
     dbB.visits = db.visits ++ [retB] ∧
     retB ∉ db.visits) := by
  obtain ⟨hmemA, hpA⟩ := filter_singleton_mem hfA
  obtain ⟨hmemB, hpB⟩ := filter_singleton_mem hfB
  simp only [Bool.and_eq_true, beq_iff_eq, Option.isNone_iff_eq_none] at hpA hpB
  obtain ⟨⟨hidA, hstudA⟩, hstatA⟩ := hpA
  obtain ⟨hidB, hstatB⟩ := hpB
  have hscalA : scalarOneOrNone (fun sc => sc.schedule_id == sidA
      && sc.student_id.isNone && sc.status == AppointmentStatus.booked) db.schedules =
      Except.ok (some slA) := (scalarOneOrNone_ok_some_iff _ _ _).mpr hfA
  have hscalB : scalarOneOrNone (fun sc => sc.schedule_id == sidB
      && sc.status == AppointmentStatus.available) db.schedules =
      Except.ok (some slB) := (scalarOneOrNone_ok_some_iff _ _ _).mpr hfB
  constructor
  · simp only [book_schedule, hscalA, Prod.mk.injEq, Except.ok.injEq] at hA
    obtain ⟨hdbA, hretA⟩ := hA
    refine ⟨hretA.symm, by rw [← hretA], by rw [← hretA]; exact hstatA, ?_, ?_, ?_⟩
    · rw [← hdbA]
      simp only [updateSchedule]
      refine List.mem_map.mpr ⟨slA, hmemA, ?_⟩
      rw [if_pos (by simp [hidA])]
      exact hretA
    · rw [← hdbA]
    · intro hmem
      have := hfresh _ hmem
      simp at this
  · simp only [create_visit_and_complaint, create_visit_inner, claimRead, hscalB] at hB
    rcases hdup : scalarOneOrNone
        (fun v => v.schedule_id == some sidB && v.student_id == stB) db.visits with
      e | r
    · rw [hdup] at hB
      simp at hB
    · rcases r with _ | v
      · rw [hdup] at hB
        simp only [claimCommit, Prod.mk.injEq, Except.ok.injEq] at hB
        obtain ⟨hdbB, hretB⟩ := hB
        refine ⟨hretB.symm, by rw [← hretB]; simp [hidB], by rw [← hretB],
          by rw [← hretB], ?_, ?_, ?_⟩
        · rw [← hdbB]
          simp only [updateSchedule]
          refine List.mem_map.mpr ⟨slB, hmemB, ?_⟩
          rw [if_pos (by simp)]
        · rw [← hdbB, hretB]
        · intro hmem
          have := hfresh _ hmem
          rw [← hretB] at this
          simp at this
      · rw [hdup] at hB
        simp at hB

/-- C4 witness: in c4_db student 10 books the booked-but-unassigned slot 1
and student 20 claims the available slot 2; both post-states carry the
claiming student on the slot, status booked, and a fresh pending visit
dated on the slot's date. -/
theorem claim_success_poststate_witness :
    ((∀ v ∈ c4_db.visits, v.visit_id < c4_db.next_visit_id) ∧
     book_schedule c4_db 10 1 = (c4_dbA, Except.ok c4_retA) ∧
     c4_db.schedules.filter (fun sc => sc.schedule_id == 1
       && sc.student_id.isNone && sc.status == AppointmentStatus.booked) = [c4_slot1] ∧
     create_visit_and_complaint c4_db 20 2 "stomach ache" =
       (c4_dbB, Except.ok c4_retB) ∧
     c4_db.schedules.filter (fun sc => sc.schedule_id == 2
       && sc.status == AppointmentStatus.available) = [c4_slot2]) ∧
    ((c4_retA = { c4_slot1 with student_id := some 10 } ∧
      c4_retA.student_id = some 10 ∧
      c4_retA.status = AppointmentStatus.booked ∧
      c4_retA ∈ c4_dbA.schedules ∧
      c4_dbA.visits = c4_db.visits ++
        [⟨c4_db.next_visit_id, 10, c4_slot1.doctor_id, some c4_slot1.schedule_id,
          c4_slot1.date, VisitStatus.pending⟩] ∧
      (⟨c4_db.next_visit_id, 10, c4_slot1.doctor_id, some c4_slot1.schedule_id,
        c4_slot1.date, VisitStatus.pending⟩ : ClinicVisit) ∉ c4_db.visits) ∧
     (c4_retB = ⟨c4_db.next_visit_id, 20, c4_slot2.doctor_id, some c4_slot2.schedule_id,
        c4_slot2.date, VisitStatus.pending⟩ ∧
      c4_retB.schedule_id = some 2 ∧
      c4_retB.status = VisitStatus.pending ∧
      c4_retB.visit_date = c4_slot2.date ∧
      { c4_slot2 with student_id := some 20, status := AppointmentStatus.booked }
        ∈ c4_dbB.schedules ∧
      c4_dbB.visits = c4_db.visits ++ [c4_retB] ∧
      c4_retB ∉ c4_db.visits)) :=
  ⟨⟨by decide, by decide, by decide, by decide, by decide⟩,
   claim_success_poststate c4_db c4_dbA c4_dbB 10 20 1 2 "stomach ache"
     c4_retA c4_retB c4_slot1 c4_slot2 (by decide) (by decide) (by decide)
     (by decide) (by decide)⟩

/-- Under distinct primary keys, a filter that pins the schedule_id to one
value matches at most one row. -/
theorem filter_by_id_le_one (l : List AppointmentSchedule) (sid : Nat)
    (p : AppointmentSchedule → Bool)
    (hids : (l.map (fun sc => sc.schedule_id)).Nodup)
    (hp : ∀ sc, p sc = true → sc.schedule_id = sid) :
    (l.filter p).length ≤ 1 := by
  induction l with
  | nil => simp
  | cons a rest ih =>
      simp only [List.map_cons, List.nodup_cons] at hids
      obtain ⟨hna, hrest⟩ := hids
      by_cases hpa : p a = true
      · rw [List.filter_cons_of_pos hpa]
        have hnil : rest.filter p = [] := by
          rw [List.filter_eq_nil_iff]
          intro b hb hpb
          exact hna (List.mem_map.mpr ⟨b, hb, by rw [hp b hpb, hp a hpa]⟩)
        rw [hnil]
        simp
      · rw [List.filter_cons_of_neg (by simpa using hpa)]
        exact ih hrest

/-- C5 amended: failures of the two Claim endpoints are always surfaced,
with an unchanged database, but not with the claimed NotFound/Conflict
split: book_schedule answers every failure - nonexistent slot id and
unclaimable slot alike - with one undifferentiated HTTP 400, and
create_visit_and_complaint answers every failure with HTTP 500, its
blanket try/except having swallowed its own typed 404/400 rejections.
The Nodup hypothesis is the primary-key uniqueness of schedule_id. -/
theorem claim_failure_codes_amended (db : DBState) (st sid : Nat) (cdesc : String)
    (hids : (db.schedules.map (fun sc => sc.schedule_id)).Nodup) :
    rejectsOnlyWith (book_schedule db st sid) db 400 = true ∧
    rejectsOnlyWith (create_visit_and_complaint db st sid cdesc) db 500 = true := by
  constructor
  · have hlen := filter_by_id_le_one db.schedules sid
      (fun sc => sc.schedule_id == sid && sc.student_id.isNone
        && sc.status == AppointmentStatus.booked)
      hids
      (fun sc hyp => by
        simp only [Bool.and_eq_true, beq_iff_eq] at hyp
        exact hyp.1.1)
    rcases hfil : db.schedules.filter (fun sc => sc.schedule_id == sid
        && sc.student_id.isNone && sc.status == AppointmentStatus.booked) with
      _ | ⟨r, _ | ⟨r2, t⟩⟩
    · have hscal := (scalarOneOrNone_ok_none_iff (fun sc => sc.schedule_id == sid
        && sc.student_id.isNone && sc.status == AppointmentStatus.booked)
          db.schedules).mpr hfil
      simp [book_schedule, hscal, rejectsOnlyWith]
    · have hscal := (scalarOneOrNone_ok_some_iff (fun sc => sc.schedule_id == sid
        && sc.student_id.isNone && sc.status == AppointmentStatus.booked)
          db.schedules r).mpr hfil
      simp [book_schedule, hscal, rejectsOnlyWith]
    · rw [hfil] at hlen
      simp at hlen
  · rcases hr : claimRead db ⟨st, sid, cdesc⟩ with e | sched
    · simp [create_visit_and_complaint, create_visit_inner, hr, rejectsOnlyWith]
    · simp [create_visit_and_complaint, create_visit_inner, hr, rejectsOnlyWith]

/-- C5 amended witness: with an empty slot table both Claims fail; the
book_schedule failure is the undifferentiated 400 and the
create_visit_and_complaint failure is the 500, each leaving the
database unchanged. -/
theorem claim_failure_codes_amended_witness :
    (c5_db.schedules.map (fun sc => sc.schedule_id)).Nodup ∧
    rejectsOnlyWith (book_schedule c5_db 10 1) c5_db 400 = true ∧
    rejectsOnlyWith (create_visit_and_complaint c5_db 10 1 "sore throat") c5_db 500
      = true :=
  ⟨by decide,
   (claim_failure_codes_amended c5_db 10 1 "sore throat" (by decide)).1,
   (claim_failure_codes_amended c5_db 10 1 "sore throat" (by decide)).2⟩

/-- C6 amended: Cancel succeeds from every status except cancelled -
including completed - and transitions the slot to cancelled; Cancel on
an already-cancelled slot always fails with the typed HTTP 400 rejection
"Schedule is already cancelled" and leaves the database unchanged.  The
hypotheses name the unique row with the requested id and require the
acting doctor to own it. -/
theorem cancel_amended (db : DBState) (doc : String) (sid : Nat)
    (sc : AppointmentSchedule)
    (hfind : db.schedules.filter (fun s => s.schedule_id == sid) = [sc])
    (hdoc : sc.doctor_id = doc) :
    (sc.status ≠ AppointmentStatus.cancelled →
      cancel_schedule db doc sid =
        ({ db with
            schedules := updateSchedule sid
              (fun s => { s with status := AppointmentStatus.cancelled })
              db.schedules },
         Except.ok { sc with status := AppointmentStatus.cancelled })) ∧
    (sc.status = AppointmentStatus.cancelled →
      cancel_schedule db doc sid =
        (db, Except.error ⟨400, "Schedule is already cancelled"⟩)) := by
  have hscal := (scalarOneOrNone_ok_some_iff
    (fun s => s.schedule_id == sid) db.schedules sc).mpr hfind
  constructor
  · intro hne
    simp [cancel_schedule, hscal, hdoc, hne]
  · intro heq
    simp [cancel_schedule, hscal, hdoc, heq]

/-- C6 amended witness: the completed slot of c6_db is cancelled
successfully; cancelling the already-cancelled slot of c6c_db fails with
the 400 rejection and changes nothing. -/
theorem cancel_amended_witness :
    (cancel_schedule c6_db "D1" 1 =
      ({ c6_db with
          schedules := updateSchedule 1
            (fun s => { s with status := AppointmentStatus.cancelled })
            c6_db.schedules },
       Except.ok { c6_slot with status := AppointmentStatus.cancelled })) ∧
    (cancel_schedule c6c_db "D1" 1 =
      (c6c_db, Except.error ⟨400, "Schedule is already cancelled"⟩)) :=
  ⟨(cancel_amended c6_db "D1" 1 c6_slot (by decide) (by decide)).1 (by decide),
   (cancel_amended c6c_db "D1" 1 c6c_slot (by decide) (by decide)).2 (by decide)⟩

/-- C7: Complete(visit_id) succeeds only on a visit that is currently
pending and owned by the acting doctor (the filter of the hypothesised
unique match); on success it sets the visit's status to completed and,
when the visit references a slot (a nonzero schedule_id - ids are
autoincrement from 1, and the source's truthiness test skips 0), the
referenced slot reaches status completed as well. -/
theorem complete_visit_spec (db db1 : DBState) (doc : String) (vid : Nat)
    (ret v : ClinicVisit) (sid : Nat) (sc : AppointmentSchedule)
    (h : complete_visit db doc vid = (db1, Except.ok ret))
    (hv : db.visits.filter (fun x => x.visit_id == vid && x.doctor_id == doc
      && x.status == VisitStatus.pending) = [v])
    (hsid : v.schedule_id = some sid) (hnz : sid ≠ 0)
    (hsc : sc ∈ db1.schedules) (hid : sc.schedule_id = sid) :
    v ∈ db.visits ∧ v.status = VisitStatus.pending ∧ v.doctor_id = doc ∧
    ret = { v with status := VisitStatus.completed } ∧
    db1.visits = db.visits.map (fun x => if x.visit_id == vid
      then { v with status := VisitStatus.completed } else x) ∧
    sc.status = AppointmentStatus.completed := by
  obtain ⟨hmemv, hpv⟩ := filter_singleton_mem hv
  simp only [Bool.and_eq_true, beq_iff_eq] at hpv
  obtain ⟨⟨hvid, hvdoc⟩, hvstat⟩ := hpv
  have hscal := (scalarOneOrNone_ok_some_iff
    (fun x => x.visit_id == vid && x.doctor_id == doc
      && x.status == VisitStatus.pending) db.visits v).mpr hv
  have htr : truthy v.schedule_id = true := by
    rw [hsid]
    simp [truthy, hnz]
  simp only [complete_visit, hscal, htr, if_true] at h
  rcases h2 : scalarOneOrNone (fun s => some s.schedule_id == v.schedule_id)
      (db.schedules) with e | r
  · rw [h2] at h
    simp at h
  · rcases r with _ | schedule
    · rw [h2] at h
      simp only [Prod.mk.injEq, Except.ok.injEq] at h
      obtain ⟨hdb1, hret⟩ := h
      exfalso
      have hnil := (scalarOneOrNone_ok_none_iff _ _).mp h2
      have hscmem : sc ∈ db.schedules := by
        have := hsc
        rw [← hdb1] at this
        exact this
      have : sc ∈ db.schedules.filter (fun s => some s.schedule_id == v.schedule_id) :=
        List.mem_filter.mpr ⟨hscmem, by simp [hid, hsid]⟩
      rw [hnil] at this
      exact absurd this (List.not_mem_nil sc)
    · rw [h2] at h
      simp only [Prod.mk.injEq, Except.ok.injEq] at h
      obtain ⟨hdb1, hret⟩ := h
      obtain ⟨hsmem, hsp⟩ := filter_singleton_mem
        ((scalarOneOrNone_ok_some_iff _ _ _).mp h2)
      simp only [hsid, Option.some.injEq, beq_iff_eq] at hsp
      refine ⟨hmemv, hvstat, hvdoc, hret.symm, ?_, ?_⟩
      · rw [← hdb1]
      · have : sc ∈ updateSchedule schedule.schedule_id
            (fun s => { s with status := AppointmentStatus.completed }) db.schedules := by
          rw [← hdb1] at hsc
          exact hsc
        simp only [updateSchedule] at this
        obtain ⟨x, hxmem, hxeq⟩ := List.mem_map.mp this
        by_cases hxid : (x.schedule_id == schedule.schedule_id) = true
        · rw [if_pos hxid] at hxeq
          rw [← hxeq]
        · rw [if_neg hxid] at hxeq
          exfalso
          apply hxid
          rw [hxeq, hid, hsp]
          simp

/-- C7 witness: doctor D1 completes pending visit 1 of c7_db, which
references slot 1; the visit and the slot both end completed. -/
theorem complete_visit_spec_witness :
    (complete_visit c7_db "D1" 1 = (c7_db1, Except.ok ⟨1, 10, "D1", some 1, 7,
       VisitStatus.completed⟩) ∧
     c7_db.visits.filter (fun x => x.visit_id == 1 && x.doctor_id == "D1"
       && x.status == VisitStatus.pending) = [c7_visit] ∧
     c7_visit.schedule_id = some 1 ∧ c7_sc ∈ c7_db1.schedules ∧
     c7_sc.schedule_id = 1) ∧
    (c7_visit ∈ c7_db.visits ∧ c7_visit.status = VisitStatus.pending ∧
     c7_visit.doctor_id = "D1" ∧
     (⟨1, 10, "D1", some 1, 7, VisitStatus.completed⟩ : ClinicVisit) =
       { c7_visit with status := VisitStatus.completed } ∧
     c7_db1.visits = c7_db.visits.map (fun x => if x.visit_id == 1
       then { c7_visit with status := VisitStatus.completed } else x) ∧
     c7_sc.status = AppointmentStatus.completed) :=
  ⟨⟨by decide, by decide, by decide, by decide, by decide⟩,
   complete_visit_spec c7_db c7_db1 "D1" 1
     ⟨1, 10, "D1", some 1, 7, VisitStatus.completed⟩ c7_visit 1 c7_sc
     (by decide) (by decide) (by decide) (by decide) (by decide) (by decide)⟩

/-- C10: a successful diagnosis creation leaves every visit row unchanged
(the visit may well still be pending), appends the diagnosis, and - when
the visit references a slot - forces that slot's status to completed
unconditionally, whatever status it had before (the witness exercises a
cancelled slot): a slot can reach completed without Complete(visit_id)
ever being called. -/
theorem diagnosis_completes_slot (db db1 : DBState) (doc : String)
    (vid stid cid : Nat) (ddesc : String) (tplan : Option String)
    (diag : DoctorDiagnosis) (v : ClinicVisit) (sid : Nat) (sc : AppointmentSchedule)
    (h : create_diagnosis db doc vid stid cid ddesc tplan = (db1, Except.ok diag))
    (hv : db.visits.filter (fun x => x.visit_id == vid && x.doctor_id == doc) = [v])
    (hsid : v.schedule_id = some sid) (hnz : sid ≠ 0)
    (hsc : sc ∈ db1.schedules) (hid : sc.schedule_id = sid) :
    db1.visits = db.visits ∧
    db1.diagnoses = db.diagnoses ++ [diag] ∧
    sc.status = AppointmentStatus.completed := by
  have hscal := (scalarOneOrNone_ok_some_iff
    (fun x => x.visit_id == vid && x.doctor_id == doc) db.visits v).mpr hv
  have htr : truthy v.schedule_id = true := by
    rw [hsid]
    simp [truthy, hnz]
  simp only [create_diagnosis, hscal, htr, if_true] at h
  by_cases hstud : v.student_id = stid
  · rw [if_neg (by simp [hstud])] at h
    rcases h2 : scalarOneOrNone (fun s => some s.schedule_id == v.schedule_id)
        (db.schedules) with e | r
    · rw [h2] at h
      simp at h
    · rcases r with _ | schedule
      · rw [h2] at h
        simp only [Prod.mk.injEq, Except.ok.injEq] at h
        obtain ⟨hdb1, hret⟩ := h
        exfalso
        have hnil := (scalarOneOrNone_ok_none_iff _ _).mp h2
        have hscmem : sc ∈ db.schedules := by
          have := hsc
          rw [← hdb1] at this
          exact this
        have : sc ∈ db.schedules.filter
            (fun s => some s.schedule_id == v.schedule_id) :=
          List.mem_filter.mpr ⟨hscmem, by simp [hid, hsid]⟩
        rw [hnil] at this
        exact absurd this (List.not_mem_nil sc)
      · rw [h2] at h
        simp only [Prod.mk.injEq, Except.ok.injEq] at h
        obtain ⟨hdb1, hret⟩ := h
        obtain ⟨hsmem, hsp⟩ := filter_singleton_mem
          ((scalarOneOrNone_ok_some_iff _ _ _).mp h2)
        simp only [hsid, Option.some.injEq, beq_iff_eq] at hsp
        refine ⟨by rw [← hdb1], by rw [← hdb1, hret], ?_⟩
        have : sc ∈ updateSchedule schedule.schedule_id
            (fun s => { s with status := AppointmentStatus.completed }) db.schedules := by
          rw [← hdb1] at hsc
          exact hsc
        simp only [updateSchedule] at this
        obtain ⟨x, hxmem, hxeq⟩ := List.mem_map.mp this
        by_cases hxid : (x.schedule_id == schedule.schedule_id) = true
        · rw [if_pos hxid] at hxeq
          rw [← hxeq]
        · rw [if_neg hxid] at hxeq
          exfalso
          apply hxid
          rw [hxeq, hid, hsp]
          simp
  · rw [if_pos (by simp [hstud])] at h
    simp at h

/-- C10 witness: doctor D1 records a diagnosis on the still-pending visit
1 of c10_db, whose slot 1 is cancelled; afterwards the visits are
untouched (still pending) while the cancelled slot has been forced to
completed. -/
theorem diagnosis_completes_slot_witness :
    (create_diagnosis c10_db "D1" 1 10 1 "flu" none = (c10_db1, Except.ok c10_diag) ∧
     c10_db.visits.filter (fun x => x.visit_id == 1 && x.doctor_id == "D1") =
       [c10_visit] ∧
     c10_visit.schedule_id = some 1 ∧ c10_slot.status = AppointmentStatus.cancelled ∧
     c10_sc ∈ c10_db1.schedules ∧ c10_sc.schedule_id = 1) ∧
    (c10_db1.visits = c10_db.visits ∧
     c10_db1.diagnoses = c10_db.diagnoses ++ [c10_diag] ∧
     c10_sc.status = AppointmentStatus.completed) :=
  ⟨⟨by decide, by decide, by decide, by decide, by decide, by decide⟩,
   diagnosis_completes_slot c10_db c10_db1 "D1" 1 10 1 "flu" none c10_diag
     c10_visit 1 c10_sc (by decide) (by decide) (by decide) (by decide)
     (by decide) (by decide)⟩

end ClinicBackend
